import Mathlib

/-
Verification development for the cosmwasm VM core and its ed25519 crypto
wrapper. The crypto wrapper definitions follow packages/crypto/src/ed25519.rs;
the instance definitions follow packages/vm/src/instance.rs. External
collaborators (the wasmer engine and the ed25519_zebra primitives) enter as
explicit parameters or as documented models of their observable behaviour.
-/

/-- A byte, as in Rust u8. -/
def Byte : Type := Fin 256

instance : DecidableEq Byte := fun a b => instDecidableEqFin 256 a b

instance : OfNat Byte n := ⟨Fin.ofNat n⟩

/-- Max length of a message for ed25519 verification in bytes
(packages/crypto/src/ed25519.rs, MESSAGE_MAX_LEN). -/
def MESSAGE_MAX_LEN : Nat := 131072

/-- Length of a serialized ed25519 signature (EDDSA_SIGNATURE_LEN). -/
def EDDSA_SIGNATURE_LEN : Nat := 64

/-- Length of a serialized ed25519 public key (EDDSA_PUBKEY_LEN). -/
def EDDSA_PUBKEY_LEN : Nat := 32

/-- Modelled from the spec: the CryptoError taxonomy of section 7
(packages/crypto/src/errors.rs is not under src). Constructors carry the
message string built by the helpers msg_err, sig_err, pubkey_err, batch_err
and generic_err used in packages/crypto/src/ed25519.rs. -/
inductive CryptoError : Type where
  | messageTooLong (msg : String)
  | invalidSignatureFormat (msg : String)
  | invalidPubkeyFormat (msg : String)
  | batchErr (msg : String)
  | genericErr (msg : String)
deriving DecidableEq

/-- Fuel-driven binary modular exponentiation, used to evaluate quadratic
residuosity in the field of 2 ^ 255 - 19 elements. -/
def powModAux : Nat → Nat → Nat → Nat → Nat → Nat
  | 0, _, _, _, acc => acc
  | fuel + 1, b, e, m, acc =>
    if e = 0 then acc
    else powModAux fuel (b * b % m) (e / 2) m (if e % 2 = 1 then acc * b % m else acc)

/-- Binary modular exponentiation for exponents below 2 ^ 256. -/
def powMod (b e m : Nat) : Nat := powModAux 256 (b % m) e m (1 % m)

/-- The ed25519 base field prime 2 ^ 255 - 19. -/
def ED_P : Nat := 2 ^ 255 - 19

/-- The twisted Edwards curve constant d = -121665 / 121666 in the base
field, as used by curve25519 point decompression. -/
def ED_D : Nat := 37095705934669439343138083508754565189542113879843219016388785533085940283555

/-- Little-endian decoding of a byte list into a natural number. -/
def leDecode : List Byte → Nat
  | [] => 0
  | b :: bs => b.val + 256 * leDecode bs

/-- Model of the external curve25519 point decompression that the
ed25519_zebra VerificationKey deserialization performs on a 32-byte key:
interpret the low 255 bits as the y coordinate, and succeed exactly when
x ^ 2 = (y ^ 2 - 1) / (d * y ^ 2 + 1) has a square root in the field,
that is when (y ^ 2 - 1) * (d * y ^ 2 + 1) is zero or a quadratic residue. -/
def decompressible (pk : List Byte) : Bool :=
  let y := leDecode pk % 2 ^ 255
  let yy := y * y % ED_P
  let u := (yy + ED_P - 1) % ED_P
  let v := (ED_D * yy + 1) % ED_P
  u == 0 || powMod (u * v % ED_P) ((ED_P - 1) / 2) ED_P == 1

/-- Model of ed25519_zebra Signature try_from on a byte slice: it only
checks the length, a signature value is a plain 64-byte record. -/
def sigTryFrom (sig : List Byte) : Except String (List Byte) :=
  if sig.length = EDDSA_SIGNATURE_LEN then .ok sig
  else .error "invalid signature length"

/-- Model of ed25519_zebra VerificationKey try_from on a byte slice: length
must be 32, then the key bytes must decompress to a curve point. The value
kept is the raw key bytes, as in the VerificationKeyBytes the library keeps. -/
def vkTryFrom (pk : List Byte) : Except String (List Byte) :=
  if pk.length = EDDSA_PUBKEY_LEN then
    if decompressible pk then .ok pk
    else .error "Malformed public key encoding"
  else .error "invalid public key length"

/-- Embedding of ed25519_verify (packages/crypto/src/ed25519.rs lines 34-70).
The external point-level verification of ed25519_zebra is the parameter
vkVerify, receiving the deserialized key bytes, the signature and the
message; the wrapper itself performs the size validation, the two
deserializations, and maps the verification outcome to Ok true / Ok false. -/
def ed25519_verify (vkVerify : List Byte → List Byte → List Byte → Bool)
    (message signature public_key : List Byte) : Except CryptoError Bool :=
  if message.length > MESSAGE_MAX_LEN then
    .error (.messageTooLong ("too large: " ++ toString message.length))
  else if ¬(signature.length = EDDSA_SIGNATURE_LEN) then
    .error (.invalidSignatureFormat ("wrong / unsupported length: " ++ toString signature.length))
  else if public_key.length = 0 then
    .error (.invalidPubkeyFormat "empty")
  else if ¬(public_key.length = EDDSA_PUBKEY_LEN) then
    .error (.invalidPubkeyFormat ("wrong / unsupported length: " ++ toString public_key.length))
  else
    match sigTryFrom signature with
    | .error e => .error (.genericErr e)
    | .ok sig =>
      match vkTryFrom public_key with
      | .error e => .error (.genericErr e)
      | .ok vk => .ok (vkVerify vk sig message)

/-- One queued batch entry: verification key bytes, signature, message,
as queued by batch.queue in ed25519_batch_verify. -/
def BatchEntry : Type := List Byte × List Byte × List Byte

/-- The per-item validation, deserialization and queueing loop of
ed25519_batch_verify (packages/crypto/src/ed25519.rs lines 123-163), with
the 1-based index i carried for the error messages. -/
def batchBuild : Nat → List (List Byte) → List (List Byte) → List (List Byte) →
    Except CryptoError (List BatchEntry)
  | i, m :: ms, s :: ss, k :: ks =>
    if m.length > MESSAGE_MAX_LEN then
      .error (.messageTooLong ("message " ++ toString i ++ ": too large: " ++ toString m.length))
    else if ¬(s.length = EDDSA_SIGNATURE_LEN) then
      .error (.invalidSignatureFormat
        ("signature " ++ toString i ++ ": wrong / unsupported length: " ++ toString s.length))
    else if k.length = 0 then
      .error (.invalidPubkeyFormat ("public key " ++ toString i ++ ": empty"))
    else if ¬(k.length = EDDSA_PUBKEY_LEN) then
      .error (.invalidPubkeyFormat
        ("public key " ++ toString i ++ ": wrong / unsupported length: " ++ toString k.length))
    else
      match sigTryFrom s with
      | .error e => .error (.genericErr ("signature " ++ toString i ++ ": " ++ e))
      | .ok sig =>
        match vkTryFrom k with
        | .error e => .error (.genericErr ("public key " ++ toString i ++ ": " ++ e))
        | .ok vk =>
          match batchBuild (i + 1) ms ss ks with
          | .error e => .error e
          | .ok rest => .ok ((vk, sig, m) :: rest)
  | _, _, _, _ => .ok []

/-- Embedding of ed25519_batch_verify (packages/crypto/src/ed25519.rs lines
86-170). The randomized external batch verification of ed25519_zebra is the
parameter bv, applied to the queued entries; the wrapper performs the
structural shape checks, the message or public key replication, and the
per-item loop. -/
def ed25519_batch_verify (bv : List BatchEntry → Bool)
    (messages signatures public_keys : List (List Byte)) : Except CryptoError Bool :=
  let messages_len := messages.length
  let signatures_len := signatures.length
  let public_keys_len := public_keys.length
  let run : List (List Byte) → List (List Byte) → Except CryptoError Bool := fun ms ks =>
    match batchBuild 1 ms signatures ks with
    | .error e => .error e
    | .ok entries => .ok (bv entries)
  if messages_len = signatures_len ∧ messages_len = public_keys_len then
    run messages public_keys
  else if messages_len = 1 ∧ signatures_len = public_keys_len then
    if signatures_len = 0 then
      .error (.batchErr "No signatures / public keys provided")
    else
      run (List.flatten (List.replicate signatures_len messages)) public_keys
  else if public_keys_len = 1 ∧ messages_len = signatures_len then
    if messages_len = 0 then
      .error (.batchErr "No messages / signatures provided")
    else
      run messages (List.flatten (List.replicate messages_len public_keys))
  else
    .error (.batchErr "Mismatched / erroneous number of messages / signatures / public keys")

example : ed25519_batch_verify (fun _ => true) [] [] [] = .ok true := rfl

set_option maxRecDepth 8000

/-- The batchBuild loop reports size, format and deserialization errors
only; it never produces a BatchErr. -/
theorem batchBuild_ne_batchErr (i : Nat) (ms ss ks : List (List Byte)) (msg : String) :
    batchBuild i ms ss ks ≠ .error (.batchErr msg) := by
  induction ms generalizing i ss ks with
  | nil => cases ss <;> cases ks <;> simp [batchBuild]
  | cons m mrest ih =>
    cases ss with
    | nil => cases ks <;> simp [batchBuild]
    | cons s srest =>
      cases ks with
      | nil => simp [batchBuild]
      | cons k krest =>
        simp only [batchBuild]
        split <;> try simp
        split <;> try simp
        split <;> try simp
        split <;> try simp
        cases hs : sigTryFrom s <;> simp [hs]
        cases hk : vkTryFrom k <;> simp [hk]
        cases hb : batchBuild (i + 1) mrest srest krest <;> simp [hb]
        intro h
        exact ih (i + 1) srest krest (h ▸ hb)

/-- The batch shapes the claim lists as accepted: three equal lengths, or
one message with n signatures and n public keys, or n messages and n
signatures with one public key, n at least 1. -/
def batchShapeAccepted (m s p : Nat) : Prop :=
  (m = s ∧ m = p) ∨ (m = 1 ∧ s = p ∧ 1 ≤ s) ∨ (p = 1 ∧ m = s ∧ 1 ≤ m)

instance (m s p : Nat) : Decidable (batchShapeAccepted m s p) := by
  unfold batchShapeAccepted
  infer_instance

/-- The BatchErr message the source produces for each rejected shape. -/
def batchRejectMsg (m s p : Nat) : String :=
  if m = 1 ∧ s = p then "No signatures / public keys provided"
  else if p = 1 ∧ m = s then "No messages / signatures provided"
  else "Mismatched / erroneous number of messages / signatures / public keys"

/-- Clearing the queue-building step never yields a BatchErr, so accepted
shapes never surface one through the run continuation. -/
theorem batch_run_ne_batchErr (bv : List BatchEntry → Bool)
    (ms ss ks : List (List Byte)) (e : String) :
    (match batchBuild 1 ms ss ks with
      | .error e0 => (.error e0 : Except CryptoError Bool)
      | .ok entries => .ok (bv entries)) ≠ .error (.batchErr e) := by
  cases hb : batchBuild 1 ms ss ks with
  | error e0 =>
    simp only []
    intro h
    injection h with h2
    exact batchBuild_ne_batchErr 1 ms ss ks e (by rw [hb, h2])
  | ok entries => simp

/-- C1 counterexample: the rejected shape of one message with zero
signatures and zero public keys returns a BatchErr whose message differs
from the canonical mismatch message the claim requires for every rejected
shape. -/
theorem ed25519_batch_verify_shape_counterexample :
    ed25519_batch_verify (fun _ => true) [[]] [] []
        = .error (.batchErr "No signatures / public keys provided") ∧
    "No signatures / public keys provided"
        ≠ "Mismatched / erroneous number of messages / signatures / public keys" :=
  ⟨rfl, by decide⟩

/-- C1 amended: ed25519_batch_verify accepts exactly the claimed shapes
(equal lengths, or 1 message with n signatures and keys, or n messages and
signatures with 1 key, n at least 1): accepted shapes never produce a
BatchErr, and every rejected shape produces a BatchErr whose message is
the canonical mismatch message, except the shapes (1, 0, 0) and (0, 0, 1)
which produce the messages about missing signatures / public keys and
missing messages / signatures respectively. -/
theorem ed25519_batch_verify_shape_amended (bv : List BatchEntry → Bool)
    (messages signatures public_keys : List (List Byte)) :
    (batchShapeAccepted messages.length signatures.length public_keys.length →
      ∀ e, ed25519_batch_verify bv messages signatures public_keys ≠ .error (.batchErr e)) ∧
    (¬ batchShapeAccepted messages.length signatures.length public_keys.length →
      ed25519_batch_verify bv messages signatures public_keys =
        .error (.batchErr
          (batchRejectMsg messages.length signatures.length public_keys.length))) := by
  constructor
  · intro hacc e
    simp only [ed25519_batch_verify]
    by_cases h1 : messages.length = signatures.length ∧ messages.length = public_keys.length
    · rw [if_pos h1]
      exact batch_run_ne_batchErr bv messages signatures public_keys e
    · rw [if_neg h1]
      by_cases h2 : messages.length = 1 ∧ signatures.length = public_keys.length
      · rw [if_pos h2]
        by_cases h3 : signatures.length = 0
        · exfalso
          obtain ⟨h2a, h2b⟩ := h2
          rcases hacc with ⟨ha, hb⟩ | ⟨ha, hb, hc⟩ | ⟨ha, hb, hc⟩ <;> omega
        · rw [if_neg h3]
          exact batch_run_ne_batchErr bv _ signatures public_keys e
      · rw [if_neg h2]
        by_cases h3 : public_keys.length = 1 ∧ messages.length = signatures.length
        · rw [if_pos h3]
          by_cases h4 : messages.length = 0
          · exfalso
            obtain ⟨h3a, h3b⟩ := h3
            rcases hacc with ⟨ha, hb⟩ | ⟨ha, hb, hc⟩ | ⟨ha, hb, hc⟩ <;> omega
          · rw [if_neg h4]
            exact batch_run_ne_batchErr bv messages signatures _ e
        · rw [if_neg h3]
          rcases hacc with ⟨ha, hb⟩ | ⟨ha, hb, hc⟩ | ⟨ha, hb, hc⟩
          · exact absurd ⟨ha, hb⟩ h1
          · exact absurd ⟨ha, hb⟩ h2
          · exact absurd ⟨ha, hb⟩ h3
  · intro hrej
    simp only [ed25519_batch_verify]
    by_cases h1 : messages.length = signatures.length ∧ messages.length = public_keys.length
    · exact absurd (Or.inl h1) hrej
    · rw [if_neg h1]
      by_cases h2 : messages.length = 1 ∧ signatures.length = public_keys.length
      · rw [if_pos h2]
        by_cases h3 : signatures.length = 0
        · rw [if_pos h3, batchRejectMsg, if_pos h2]
        · exact absurd (Or.inr (Or.inl ⟨h2.1, h2.2, by omega⟩)) hrej
      · rw [if_neg h2]
        by_cases h3 : public_keys.length = 1 ∧ messages.length = signatures.length
        · rw [if_pos h3]
          by_cases h4 : messages.length = 0
          · rw [if_pos h4, batchRejectMsg, if_neg h2, if_pos h3]
          · exact absurd (Or.inr (Or.inr ⟨h3.1, h3.2, by omega⟩)) hrej
        · rw [if_neg h3, batchRejectMsg, if_neg h2, if_neg h3]

/-- Witness for the amended C1 theorem at concrete shapes: the empty batch
is accepted with no BatchErr, the shape (2, 1, 0) is rejected with the
canonical message. -/
theorem ed25519_batch_verify_shape_amended_witness :
    ed25519_batch_verify (fun _ => true) [] [] [] ≠ .error (.batchErr "boom") ∧
    ed25519_batch_verify (fun _ => true) [[], []] [[]] []
        = .error (.batchErr
            "Mismatched / erroneous number of messages / signatures / public keys") :=
  ⟨(ed25519_batch_verify_shape_amended (fun _ => true) [] [] []).1 (by decide) "boom",
   (ed25519_batch_verify_shape_amended (fun _ => true) [[], []] [[]] []).2 (by decide)⟩

/-- C6: ed25519_batch_verify with all three lists empty returns Ok true,
given that the external batch verifier accepts the empty batch (the
randomized verification equation with zero terms holds trivially, and the
repo test test_cosmos_ed25519_batch_verify_empty_works asserts it). -/
theorem ed25519_batch_verify_empty_ok (bv : List BatchEntry → Bool) (h : bv [] = true) :
    ed25519_batch_verify bv [] [] [] = .ok true := by
  rw [show ed25519_batch_verify bv [] [] [] = .ok (bv []) from rfl, h]

/-- Witness for C6 with a concrete batch verifier accepting the empty
batch. -/
theorem ed25519_batch_verify_empty_ok_witness :
    ed25519_batch_verify (fun _ => true) [] [] [] = .ok true :=
  ed25519_batch_verify_empty_ok (fun _ => true) rfl

/-- C4 counterexample: message, signature and public key sizes all within
the claimed limits (0 bytes, 64 bytes, 32 bytes), yet ed25519_verify does
not return a verification result: the 32-byte key 0x02 followed by 31 zero
bytes fails curve point decompression, so the deserialization step returns
a GenericErr. The outcome does not depend on the external point
verification function. -/
theorem ed25519_verify_sizes_counterexample :
    ([] : List Byte).length ≤ MESSAGE_MAX_LEN
      ∧ (List.replicate 64 (0 : Byte)).length = EDDSA_SIGNATURE_LEN
      ∧ ((2 : Byte) :: List.replicate 31 (0 : Byte)).length = EDDSA_PUBKEY_LEN
      ∧ ed25519_verify (fun _ _ _ => true) [] (List.replicate 64 (0 : Byte))
          ((2 : Byte) :: List.replicate 31 (0 : Byte))
          = .error (.genericErr "Malformed public key encoding")
      ∧ ed25519_verify (fun _ _ _ => false) [] (List.replicate 64 (0 : Byte))
          ((2 : Byte) :: List.replicate 31 (0 : Byte))
          = .error (.genericErr "Malformed public key encoding") :=
  ⟨by decide, by decide, by decide, rfl, rfl⟩

/-- C4 amended: for inputs within the size limits, ed25519_verify returns
Ok with a boolean verification result when the public key decompresses to
a curve point, and a GenericErr when the 32-byte key fails decompression;
a too long message, a signature whose length is not 64, or a public key
whose length is not 32 produce the typed errors MessageTooLong,
InvalidSignatureFormat and InvalidPubkeyFormat respectively, without a
verification result. -/
theorem ed25519_verify_sizes_amended (vkVerify : List Byte → List Byte → List Byte → Bool)
    (message signature public_key : List Byte) :
    (message.length ≤ MESSAGE_MAX_LEN → signature.length = EDDSA_SIGNATURE_LEN →
      public_key.length = EDDSA_PUBKEY_LEN → decompressible public_key = true →
      ∃ b, ed25519_verify vkVerify message signature public_key = .ok b) ∧
    (message.length ≤ MESSAGE_MAX_LEN → signature.length = EDDSA_SIGNATURE_LEN →
      public_key.length = EDDSA_PUBKEY_LEN → decompressible public_key = false →
      ∃ m, ed25519_verify vkVerify message signature public_key
        = .error (.genericErr m)) ∧
    (message.length > MESSAGE_MAX_LEN →
      ed25519_verify vkVerify message signature public_key
        = .error (.messageTooLong ("too large: " ++ toString message.length))) ∧
    (message.length ≤ MESSAGE_MAX_LEN → signature.length ≠ EDDSA_SIGNATURE_LEN →
      ed25519_verify vkVerify message signature public_key
        = .error (.invalidSignatureFormat
            ("wrong / unsupported length: " ++ toString signature.length))) ∧
    (message.length ≤ MESSAGE_MAX_LEN → signature.length = EDDSA_SIGNATURE_LEN →
      public_key.length ≠ EDDSA_PUBKEY_LEN →
      ∃ m, ed25519_verify vkVerify message signature public_key
        = .error (.invalidPubkeyFormat m)) := by
  refine ⟨?_, ?_, ?_, ?_, ?_⟩
  · intro hm hs hp hd
    refine ⟨vkVerify public_key signature message, ?_⟩
    simp only [ed25519_verify]
    rw [if_neg (by omega), if_neg (by simp [hs]), if_neg (by simp [hp, EDDSA_PUBKEY_LEN]),
      if_neg (by simp [hp])]
    simp [sigTryFrom, vkTryFrom, hs, hp, hd]
  · intro hm hs hp hd
    refine ⟨"Malformed public key encoding", ?_⟩
    simp only [ed25519_verify]
    rw [if_neg (by omega), if_neg (by simp [hs]), if_neg (by simp [hp, EDDSA_PUBKEY_LEN]),
      if_neg (by simp [hp])]
    simp [sigTryFrom, vkTryFrom, hs, hp, hd]
  · intro hm
    simp only [ed25519_verify]
    rw [if_pos (by omega)]
  · intro hm hs
    simp only [ed25519_verify]
    rw [if_neg (by omega), if_pos hs]
  · intro hm hs hp
    by_cases hz : public_key.length = 0
    · refine ⟨"empty", ?_⟩
      simp only [ed25519_verify]
      rw [if_neg (by omega), if_neg (by simp [hs]), if_pos hz]
    · refine ⟨"wrong / unsupported length: " ++ toString public_key.length, ?_⟩
      simp only [ed25519_verify]
      rw [if_neg (by omega), if_neg (by simp [hs]), if_neg hz, if_pos hp]

/-- Witness for the amended C4 theorem: the 32-byte key 0x01 followed by
31 zero bytes decompresses (y = 1 gives x = 0), so a size-valid call
returns a verification result. -/
theorem ed25519_verify_sizes_amended_witness :
    ∃ b, ed25519_verify (fun _ _ _ => true) [] (List.replicate 64 (0 : Byte))
        ((1 : Byte) :: List.replicate 31 (0 : Byte)) = .ok b :=
  (ed25519_verify_sizes_amended (fun _ _ _ => true) [] (List.replicate 64 (0 : Byte))
      ((1 : Byte) :: List.replicate 31 (0 : Byte))).1
    (by decide) (by decide) (by decide) (by decide)

/-- A call to ed25519_verify with an ambient randomness source threaded
through it. The source body of ed25519_verify contains no randomness:
OsRng appears only in the batch verification path, so the parameter is
not consulted. -/
def ed25519_verify_with_rng {R : Type} (_rng : R)
    (vkVerify : List Byte → List Byte → List Byte → Bool)
    (message signature public_key : List Byte) : Except CryptoError Bool :=
  ed25519_verify vkVerify message signature public_key

/-- C10: ed25519_verify is deterministic: two calls on byte-for-byte equal
message, signature and public key return the same result whatever the
state of the ambient randomness source, because the single-signature path
never reads randomness and the underlying point verification is a pure
function of its inputs. -/
theorem ed25519_verify_deterministic {R : Type} (r1 r2 : R)
    (vkVerify : List Byte → List Byte → List Byte → Bool)
    (message signature public_key : List Byte) :
    ed25519_verify_with_rng r1 vkVerify message signature public_key
      = ed25519_verify_with_rng r2 vkVerify message signature public_key := rfl

/-- Modelled from the spec: the CommunicationError taxonomy of section 7
(packages/vm/src/errors.rs is not under src). Payloads are omitted where
no claim depends on them. -/
inductive CommunicationError : Type where
  | regionLengthTooBig
  | regionTooSmall
  | regionOutOfRange
  | zeroAddress
  | derefErr
  | invalidUtf8
deriving DecidableEq

/-- Modelled from the spec: the VmError taxonomy of section 7
(packages/vm/src/errors.rs is not under src), restricted to the variants
the embedded operations construct. InstantiationErr carries the message
built in from_module; conversionErr models the error of the fallible
usize-to-u32 conversion used by allocate. -/
inductive VmError : Type where
  | instantiationErr (msg : String)
  | communicationErr (source : CommunicationError)
  | runtimeErr (msg : String)
  | gasDepletion
  | conversionErr (msg : String)
deriving DecidableEq

/-- The Backend triple moved into an instance at construction
(packages/vm/src/backend.rs is not under src; the shape is given by the
spec and by the construction in Instance::recycle). -/
structure Backend (A S Q : Type) where
  api : A
  storage : S
  querier : Q

/-- GasState as in the spec, section 3: the gas limit and the externally
metered gas used so far. -/
structure GasState where
  gas_limit : Nat
  externally_used_gas : Nat

/-- Modelled from the spec: the per-instance Environment of section 3
(packages/vm/src/environment.rs is not under src). The storage and querier
are movable optional slots; wasmer_instance is the back-pointer set once
after instantiation, modelled as an optional token; gas_left models the
metering points stored in the wasmer instance and read by get_gas_left. -/
structure Environment (A S Q : Type) where
  api : A
  gas_state : GasState
  storage : Option S
  querier : Option Q
  storage_readonly : Bool
  wasmer_instance : Option Nat
  print_debug : Bool
  gas_left : Nat

/-- Modelled from the spec: Environment::new as used in from_module:
fresh gas state at the given limit, no storage or querier yet, no
back-pointer, storage read-only by default. -/
def Environment.new (api : A) (gas_limit : Nat) (print_debug : Bool) : Environment A S Q :=
  { api := api
    gas_state := { gas_limit := gas_limit, externally_used_gas := 0 }
    storage := none
    querier := none
    storage_readonly := true
    wasmer_instance := none
    print_debug := print_debug
    gas_left := 0 }

/-- Modelled from the spec: Environment::move_in stores the backend
storage and querier into the context slots. -/
def Environment.move_in (env : Environment A S Q) (storage : S) (querier : Q) :
    Environment A S Q :=
  { env with storage := some storage, querier := some querier }

/-- Modelled from the spec: Environment::move_out empties the context
slots and hands back whatever they held. -/
def Environment.move_out (env : Environment A S Q) :
    (Option S × Option Q) × Environment A S Q :=
  ((env.storage, env.querier), { env with storage := none, querier := none })

/-- Modelled from the spec: Environment::set_gas_left writes the metering
points of the wasmer instance. -/
def Environment.set_gas_left (env : Environment A S Q) (amount : Nat) : Environment A S Q :=
  { env with gas_left := amount }

/-- The Instance of packages/vm/src/instance.rs: the boxed wasmer instance
(an opaque value of type W here) and the Environment. -/
structure Instance (A S Q W : Type) where
  inner : W
  env : Environment A S Q

/-- Embedding of Instance::from_module (packages/vm/src/instance.rs lines
83-254) restricted to what the claims observe. The external wasmer
instantiation outcome is the parameter instantiate_wasm: on failure the
formatted InstantiationErr is returned and the backend is dropped; on
success the back-pointer is installed, the gas limit is set and the
backend storage and querier are moved into the Environment. -/
def from_module (backend : Backend A S Q) (gas_limit : Nat) (print_debug : Bool)
    (instantiate_wasm : Except String W) : Except VmError (Instance A S Q W) :=
  let env : Environment A S Q := Environment.new backend.api gas_limit print_debug
  match instantiate_wasm with
  | .error original =>
    .error (.instantiationErr ("Error instantiating module: " ++ original))
  | .ok wasmer_instance =>
    let env := { env with wasmer_instance := some 1 }
    let env := env.set_gas_left gas_limit
    let env := env.move_in backend.storage backend.querier
    .ok { inner := wasmer_instance, env := env }

/-- Embedding of Instance::recycle (packages/vm/src/instance.rs lines
262-273): move storage and querier out of the Environment; when both were
present return them as a Backend together with the api, otherwise None.
The post-state instance is returned explicitly to model the shared
environment the Rust code mutates. -/
def Instance.recycle (inst : Instance A S Q W) :
    Option (Backend A S Q) × Instance A S Q W :=
  match inst.env.move_out with
  | ((some storage, some querier), env2) =>
    (some { api := inst.env.api, storage := storage, querier := querier },
     { inst with env := env2 })
  | ((_, _), env2) => (none, { inst with env := env2 })

/-- Embedding of Instance::memory_pages (packages/vm/src/instance.rs lines
288-290). The source body is todo!(), which panics at runtime with the
message "not yet implemented"; the panic is modelled as an error value,
so no call ever produces a page count. -/
def Instance.memory_pages (_inst : Instance A S Q W) : Except String Nat :=
  .error "not yet implemented"

/-- Embedding of Instance::create_gas_report (packages/vm/src/instance.rs
lines 300-315): snapshot of limit, remaining, externally used gas, and the
saturating used_internally formula (Nat subtraction is saturating). -/
structure GasReport where
  limit : Nat
  remaining : Nat
  used_externally : Nat
  used_internally : Nat

/-- Embedding of Instance::create_gas_report. -/
def Instance.create_gas_report (inst : Instance A S Q W) : GasReport :=
  { limit := inst.env.gas_state.gas_limit
    remaining := inst.env.gas_left
    used_externally := inst.env.gas_state.externally_used_gas
    used_internally :=
      inst.env.gas_state.gas_limit - inst.env.gas_state.externally_used_gas - inst.env.gas_left }

/-- A gas-affecting event in an instance life: internally metered Wasm
execution burning metering points, or an import charging external gas. -/
inductive GasOp : Type where
  | burnInternal (cost : Nat)
  | chargeExternal (cost : Nat)

/-- Modelled from the spec: the charge protocol of section 4.2. Internal
execution decrements the metering points, saturating at zero (the guest
traps there). An external charge whose total would exceed the gas limit
zeroes the metering points and leaves the external accumulator unchanged
(the import returns GasDepletion); otherwise it adds the cost to the
external accumulator and reduces the metering points by the same cost so
the observable budget tracks the external charge. -/
def apply_gas_op (env : Environment A S Q) : GasOp → Environment A S Q
  | .burnInternal cost => { env with gas_left := env.gas_left - cost }
  | .chargeExternal cost =>
    if env.gas_state.externally_used_gas + cost > env.gas_state.gas_limit then
      { env with gas_left := 0 }
    else
      { env with
        gas_state := { env.gas_state with
          externally_used_gas := env.gas_state.externally_used_gas + cost }
        gas_left := env.gas_left - cost }

/-- Modelled from the spec: the fallible usize-to-u32 conversion used by
Instance::allocate (packages/vm/src/conversion.rs is not under src). -/
def to_u32 (n : Nat) : Except VmError Nat :=
  if n < 2 ^ 32 then .ok n else .error (.conversionErr "value too big for u32")

/-- Embedding of Instance::allocate (packages/vm/src/instance.rs lines
334-341). The guest call to the allocate export (call_function1 plus the
ref_to_u32 result conversion) is the parameter guest; a zero return is
rejected as a CommunicationError ZeroAddress. -/
def allocate (guest : Nat → Except VmError Nat) (size : Nat) : Except VmError Nat :=
  match to_u32 size with
  | .error e => .error e
  | .ok sz =>
    match guest sz with
    | .error e => .error e
    | .ok ptr => if ptr = 0 then .error (.communicationErr .zeroAddress) else .ok ptr

/-- A Wasm module export as the capabilities scan sees it: a name and
whether the export is a function. -/
structure WasmExport where
  name : List Char
  is_function : Bool

/-- The 9-byte marker the capabilities scan looks for at the start of an
export name. -/
def requiresMarker : List Char := "requires_".data

/-- Modelled from the spec: required_capabilities_from_module as described
in sections 4.7 and 4.6 (packages/vm/src/capabilities.rs is not under
src): over the module exports, keep function exports whose name starts
with the exact marker and has a non-empty remainder, and collect the
remainders into a set. Case-sensitive, no ordering. -/
def required_capabilities_from_module (exports : List WasmExport) : Finset (List Char) :=
  (exports.filterMap fun e =>
    if e.is_function ∧ e.name.take 9 = requiresMarker ∧ 9 < e.name.length then
      some (e.name.drop 9)
    else none).toFinset

/-- C2: memory_pages never returns a page count: the source body is a
todo macro, so every call panics instead of reporting the linear memory
size, although the module doc comment and the repo tests
(memory_pages_returns_min_memory_size_by_default,
memory_pages_grows_with_usage) promise the size in 64 KiB pages. -/
theorem memory_pages_never_returns {A S Q W : Type} (inst : Instance A S Q W) (n : Nat) :
    inst.memory_pages ≠ .ok n := by
  simp [Instance.memory_pages]

/-- C3 counterexample: two backends with different storage and querier
values, failing instantiation the same way, produce identical
InstantiationErr values carrying only the message, so the caller cannot
recover the storage or querier from the error. -/
theorem from_module_failure_counterexample :
    from_module (W := Nat) (Backend.mk (0 : Nat) (0 : Nat) (0 : Nat)) 100 false (.error "boom")
        = from_module (W := Nat) (Backend.mk (0 : Nat) (1 : Nat) (2 : Nat)) 100 false
            (.error "boom") ∧
    from_module (W := Nat) (Backend.mk (0 : Nat) (0 : Nat) (0 : Nat)) 100 false (.error "boom")
        = .error (.instantiationErr "Error instantiating module: boom") ∧
    (0 : Nat) ≠ 1 ∧ (0 : Nat) ≠ 2 :=
  ⟨rfl, rfl, by decide, by decide⟩

/-- C3 amended: when instantiation fails, from_module returns an
InstantiationErr carrying only the formatted message; the supplied
storage and querier are dropped, and the error value is independent of
the whole backend, so nothing is released back to the caller through the
error path. -/
theorem from_module_failure_amended {A S Q W : Type} (b1 b2 : Backend A S Q)
    (gas_limit : Nat) (print_debug : Bool) (e : String) :
    from_module (W := W) b1 gas_limit print_debug (.error e)
        = .error (.instantiationErr ("Error instantiating module: " ++ e)) ∧
    from_module (W := W) b1 gas_limit print_debug (.error e)
        = from_module (W := W) b2 gas_limit print_debug (.error e) :=
  ⟨rfl, rfl⟩

/-- Along any sequence of gas operations, the external accumulator plus
the remaining metering points never exceed the gas limit, and the limit
itself never changes. -/
theorem gas_ops_invariant {A S Q : Type} (ops : List GasOp) (env : Environment A S Q)
    (h : env.gas_state.externally_used_gas + env.gas_left ≤ env.gas_state.gas_limit) :
    (ops.foldl apply_gas_op env).gas_state.externally_used_gas
        + (ops.foldl apply_gas_op env).gas_left
      ≤ (ops.foldl apply_gas_op env).gas_state.gas_limit
    ∧ (ops.foldl apply_gas_op env).gas_state.gas_limit = env.gas_state.gas_limit := by
  induction ops generalizing env with
  | nil => exact ⟨h, rfl⟩
  | cons op rest ih =>
    simp only [List.foldl_cons]
    have step : (apply_gas_op env op).gas_state.externally_used_gas
          + (apply_gas_op env op).gas_left
        ≤ (apply_gas_op env op).gas_state.gas_limit
        ∧ (apply_gas_op env op).gas_state.gas_limit = env.gas_state.gas_limit := by
      cases op with
      | burnInternal c =>
        refine ⟨?_, rfl⟩
        show env.gas_state.externally_used_gas + (env.gas_left - c)
          ≤ env.gas_state.gas_limit
        omega
      | chargeExternal c =>
        simp only [apply_gas_op]
        split
        · refine ⟨?_, rfl⟩
          show env.gas_state.externally_used_gas + 0 ≤ env.gas_state.gas_limit
          omega
        · refine ⟨?_, rfl⟩
          show env.gas_state.externally_used_gas + c + (env.gas_left - c)
            ≤ env.gas_state.gas_limit
          omega
    obtain ⟨ih1, ih2⟩ := ih (apply_gas_op env op) step.1
    exact ⟨ih1, by rw [ih2, step.2]⟩

/-- C5: for an instance built by from_module and any sequence of internal
burns and external charges, the gas report satisfies used_externally plus
used_internally plus remaining equals the gas limit, with used_internally
given by the doubly saturating subtraction of the source. -/
theorem create_gas_report_identity {A S Q W : Type} (backend : Backend A S Q)
    (gas_limit : Nat) (print_debug : Bool) (w : W) (inst : Instance A S Q W)
    (hinst : from_module backend gas_limit print_debug (.ok w) = .ok inst)
    (ops : List GasOp) :
    (Instance.create_gas_report ⟨inst.inner, ops.foldl apply_gas_op inst.env⟩).used_externally
        + (Instance.create_gas_report ⟨inst.inner, ops.foldl apply_gas_op inst.env⟩).used_internally
        + (Instance.create_gas_report ⟨inst.inner, ops.foldl apply_gas_op inst.env⟩).remaining
      = (Instance.create_gas_report ⟨inst.inner, ops.foldl apply_gas_op inst.env⟩).limit := by
  have henv : inst.env
      = { api := backend.api
          gas_state := { gas_limit := gas_limit, externally_used_gas := 0 }
          storage := some backend.storage
          querier := some backend.querier
          storage_readonly := true
          wasmer_instance := some 1
          print_debug := print_debug
          gas_left := gas_limit } := by
    simp only [from_module, Environment.new, Environment.move_in, Environment.set_gas_left,
      Except.ok.injEq] at hinst
    rw [← hinst]
  obtain ⟨hI, _⟩ := gas_ops_invariant ops inst.env
    (by rw [henv]; show (0 : Nat) + gas_limit ≤ gas_limit; omega)
  simp only [Instance.create_gas_report]
  omega

/-- A concrete instance produced by from_module, used to witness the gas
report identity and the recycle behaviour. -/
def instC5 : Instance Nat Nat Nat Nat :=
  { inner := 0
    env := { api := 0
             gas_state := { gas_limit := 10, externally_used_gas := 0 }
             storage := some 0
             querier := some 0
             storage_readonly := true
             wasmer_instance := some 1
             print_debug := false
             gas_left := 10 } }

/-- Witness for C5 on a concrete instance and a concrete op sequence. -/
theorem create_gas_report_identity_witness :
    (Instance.create_gas_report
        ⟨instC5.inner,
          [GasOp.burnInternal 3, GasOp.chargeExternal 4].foldl apply_gas_op
            instC5.env⟩).used_externally
        + (Instance.create_gas_report
            ⟨instC5.inner,
              [GasOp.burnInternal 3, GasOp.chargeExternal 4].foldl apply_gas_op
                instC5.env⟩).used_internally
        + (Instance.create_gas_report
            ⟨instC5.inner,
              [GasOp.burnInternal 3, GasOp.chargeExternal 4].foldl apply_gas_op
                instC5.env⟩).remaining
      = (Instance.create_gas_report
          ⟨instC5.inner,
            [GasOp.burnInternal 3, GasOp.chargeExternal 4].foldl apply_gas_op
              instC5.env⟩).limit :=
  create_gas_report_identity (Backend.mk 0 0 0) 10 false 0 instC5 rfl
    [GasOp.burnInternal 3, GasOp.chargeExternal 4]

/-- C7: recycle moves the storage and querier out: when both are present
it returns Some Backend holding them together with the api, and a second
recycle on the resulting state returns None; when either slot was already
moved out it returns None. -/
theorem recycle_moves_backend {A S Q W : Type} (inst : Instance A S Q W) :
    (∀ s q, inst.env.storage = some s → inst.env.querier = some q →
      (inst.recycle).1 = some { api := inst.env.api, storage := s, querier := q } ∧
      ((inst.recycle).2.recycle).1 = none) ∧
    (inst.env.storage = none ∨ inst.env.querier = none → (inst.recycle).1 = none) := by
  constructor
  · intro s q hs hq
    constructor
    · simp [Instance.recycle, Environment.move_out, hs, hq]
    · simp [Instance.recycle, Environment.move_out, hs, hq]
  · intro h
    rcases h with h | h
    · cases hq : inst.env.querier <;>
        simp [Instance.recycle, Environment.move_out, h, hq]
    · cases hs : inst.env.storage <;>
        simp [Instance.recycle, Environment.move_out, h, hs]

/-- Witness for C7: a concrete recycle returns the backend, and the
second recycle returns None. -/
theorem recycle_moves_backend_witness :
    (instC5.recycle).1 = some { api := 0, storage := 0, querier := 0 } ∧
    ((instC5.recycle).2.recycle).1 = none :=
  (recycle_moves_backend instC5).1 0 0 rfl rfl

/-- C8: allocate never hands a zero region pointer to the caller: every
successful call returns a non-zero pointer, and when the guest allocate
export returns 0 the call fails with the ZeroAddress communication
error. -/
theorem allocate_nonzero_or_fails (guest : Nat → Except VmError Nat) (size : Nat) :
    (∀ ptr, allocate guest size = .ok ptr → ptr ≠ 0) ∧
    (∀ sz, to_u32 size = .ok sz → guest sz = .ok 0 →
      allocate guest size = .error (.communicationErr .zeroAddress)) := by
  constructor
  · intro ptr h h0
    simp only [allocate] at h
    cases hc : to_u32 size with
    | error e =>
      rw [hc] at h
      have h2 : (Except.error e : Except VmError Nat) = .ok ptr := h
      simp at h2
    | ok sz =>
      rw [hc] at h
      have h2 : (match guest sz with
            | Except.error e => (Except.error e : Except VmError Nat)
            | Except.ok ptr =>
              if ptr = 0 then .error (.communicationErr .zeroAddress) else .ok ptr)
          = .ok ptr := h
      cases hg : guest sz with
      | error e =>
        rw [hg] at h2
        have h3 : (Except.error e : Except VmError Nat) = .ok ptr := h2
        simp at h3
      | ok p =>
        rw [hg] at h2
        have h3 : (if p = 0 then
              (Except.error (VmError.communicationErr CommunicationError.zeroAddress) :
                Except VmError Nat)
            else .ok p) = .ok ptr := h2
        by_cases hz : p = 0
        · rw [if_pos hz] at h3
          simp at h3
        · rw [if_neg hz] at h3
          simp only [Except.ok.injEq] at h3
          exact hz (by rw [h3, h0])
  · intro sz hc hg
    simp [allocate, hc, hg]

/-- Witness for C8: a guest returning 0 produces ZeroAddress, a guest
returning 7 yields a non-zero pointer. -/
theorem allocate_nonzero_or_fails_witness :
    allocate (fun _ => .ok 0) 5 = .error (.communicationErr .zeroAddress) ∧
    (7 : Nat) ≠ 0 :=
  ⟨(allocate_nonzero_or_fails (fun _ => .ok 0) 5).2 5 rfl rfl,
   (allocate_nonzero_or_fails (fun _ => .ok 7) 5).1 7 rfl⟩

/-- C9: the capabilities scan returns exactly the non-empty suffixes of
function exports whose name starts with the exact case-sensitive marker;
on the six mixed exports of the claim the result is exactly the
three-element set of water, nutrients and sun. -/
theorem required_capabilities_exact :
    (∀ (exports : List WasmExport) (x : List Char),
      x ∈ required_capabilities_from_module exports ↔
        x ≠ [] ∧ ∃ e ∈ exports, e.is_function = true ∧ e.name = requiresMarker ++ x) ∧
    required_capabilities_from_module
        [⟨"requires_water".data, true⟩, ⟨"requires_".data, true⟩,
         ⟨"requires_nutrients".data, true⟩, ⟨"require_milk".data, true⟩,
         ⟨"REQUIRES_air".data, true⟩, ⟨"requires_sun".data, true⟩]
      = {"water".data, "nutrients".data, "sun".data} := by
  constructor
  · intro exports x
    simp only [required_capabilities_from_module, List.mem_toFinset, List.mem_filterMap]
    constructor
    · rintro ⟨e, he, hfe⟩
      by_cases hc : e.is_function ∧ e.name.take 9 = requiresMarker ∧ 9 < e.name.length
      · rw [if_pos hc] at hfe
        injection hfe with hx
        obtain ⟨hf, ht, hl⟩ := hc
        refine ⟨?_, e, he, hf, ?_⟩
        · rw [← hx]
          intro hnil
          have hlen := congrArg List.length hnil
          simp only [List.length_drop, List.length_nil] at hlen
          omega
        · rw [← hx, ← ht]
          exact (List.take_append_drop 9 e.name).symm
      · rw [if_neg hc] at hfe
        exact absurd hfe (by simp)
    · rintro ⟨hne, e, he, hf, hname⟩
      refine ⟨e, he, ?_⟩
      have hlen9 : requiresMarker.length = 9 := by decide
      have htake : e.name.take 9 = requiresMarker := by
        rw [hname, ← hlen9, List.take_left]
      have hdrop : e.name.drop 9 = x := by
        rw [hname, ← hlen9, List.drop_left]
      have hxl : 0 < x.length := List.length_pos.mpr hne
      have hlen : 9 < e.name.length := by
        rw [hname, List.length_append, hlen9]; omega
      rw [if_pos ⟨hf, htake, hlen⟩, hdrop]
  · decide
